import Mathlib

/-!
Shallow embedding of the quoting core of `ilp-core` (src/lib/client.js,
src/lib/core.js, src/lib/util.js) and proofs about its behaviour.

Modelling conventions:
* JavaScript `undefined`-able values are `Option`; an absent object key is `none`
  (`omitUndefined` is therefore the identity on this representation).
* JavaScript truthiness: a string is truthy iff nonempty; a number is truthy iff
  nonzero; `undefined` is falsy.
* Decimal amount strings are compared through `decToRat`, the numeric value a
  `BigNumber` assigns to a decimal string (exact decimal arithmetic, no floats).
* Fallible code paths (thrown exceptions / rejected promises) return `Except`.
-/

/-- Numeric value of one decimal digit character. -/
def digitVal (c : Char) : ℕ := c.toNat - '0'.toNat

/-- Numeric value of a list of decimal digit characters, most significant first. -/
def digitsVal (cs : List Char) : ℕ := cs.foldl (fun a c => a * 10 + digitVal c) 0

/-- Exact rational value of a decimal string such as "-12.34", mirroring
`new BigNumber(s)` on well-formed decimal inputs. -/
def decToRat (s : String) : ℚ :=
  let cs := s.toList
  let neg := cs.head? = some '-'
  let cs1 := if neg then cs.tail else cs
  let intPart := cs1.takeWhile (fun c => c ≠ '.')
  let fracPart := (cs1.dropWhile (fun c => c ≠ '.')).tail
  let mag : ℚ := (digitsVal intPart : ℚ) + (digitsVal fracPart : ℚ) / ((10 : ℚ) ^ fracPart.length)
  if neg then -mag else mag

/-- JS truthiness of an optional string (`undefined` and the empty string are falsy). -/
def truthyStr : Option String → Bool
  | none => false
  | some s => s ≠ ""

/-- Embedding of lodash `startsWith(pfx, s)`: does `s` start with `pfx`? -/
def jsStartsWith (pfx s : String) : Bool := pfx.toList.isPrefixOf s.toList

/-- JS truthiness of an optional number (`undefined` and `0` are falsy). -/
def truthyQ : Option ℚ → Bool
  | none => false
  | some q => q ≠ 0

/-- A connector's quote payload as carried in a `quote_response` message
(`data.data`), the shape consumed by `getCheaperQuote` and `Client.quote`. -/
structure ConnQuote where
  source_amount : String
  destination_amount : String
  source_connector_account : Option String
  source_expiry_duration : Option ℚ
deriving DecidableEq, Repr

/-- Embedding of `getCheaperQuote` (src/lib/client.js lines 285-295):
return `quote1` if its `source_amount` is a strictly smaller `BigNumber`,
else return `quote1` if its `destination_amount` is strictly greater,
else return `quote2`. -/
def getCheaperQuote (quote1 quote2 : ConnQuote) : ConnQuote :=
  if decToRat quote1.source_amount < decToRat quote2.source_amount then quote1
  else if decToRat quote2.destination_amount < decToRat quote1.destination_amount then quote1
  else quote2

/-- A quote query message body as assembled by `Client.quote`
(src/lib/client.js lines 122-128); absent keys are `none` (`omitUndefined`). -/
structure QuoteQuery where
  source_address : String
  source_amount : Option String
  destination_address : String
  destination_amount : Option String
  destination_expiry_duration : Option ℚ
deriving DecidableEq, Repr

/-- Result object of `Client.quote` (src/lib/client.js lines 115-119 and 138-143);
absent keys are `none` (`omitUndefined`). -/
structure ClientQuoteResult where
  sourceAmount : Option String
  destinationAmount : Option String
  connectorAccount : Option String
  sourceExpiryDuration : Option ℚ
deriving DecidableEq, Repr

/-- Network interactions performed by `Client.quote`: discovering connectors via
the plugin and sending one correlated quote-request message per connector. -/
inductive NetCall where
  | connectorLookup : NetCall
  | quoteRequest (connector : String) : NetCall
deriving DecidableEq, Repr

/-- The environment a `Client` runs against: its plugin's static info and the
outcome of each correlated quote-request exchange. `exchange c q` is the
settlement of the promise returned by `_sendAndReceiveMessage` for connector `c`
and query `q`: `Except.ok` with the response payload (`resMessage.data.data`)
on a matching `quote_response`, `Except.error` on an error response, on a
timeout, or on a transport (sendMessage) failure. -/
structure ClientEnv where
  ledgerPfx : String
  account : String
  infoConnectors : Option (List String)
  clientConnectors : Option (List String)
  exchange : String → QuoteQuery → Except String ConnQuote

/-- Embedding of `Client.getConnectors` (src/lib/client.js lines 220-225):
the client-configured list if present, else the plugin info's list, else `[]`. -/
def Client.getConnectors (env : ClientEnv) : List String :=
  match env.clientConnectors with
  | some cs => cs
  | none => env.infoConnectors.getD []

/-- Embedding of `Client._getQuote` (src/lib/client.js lines 227-243): await the
correlated response and return its `data.data` payload; any error (error
response, timeout, transport failure) is caught and turns into `undefined`. -/
def Client._getQuote (env : ClientEnv) (connectorAddress : String)
    (quoteQuery : QuoteQuery) : Option ConnQuote :=
  match env.exchange connectorAddress quoteQuery with
  | Except.ok quoteResponse => some quoteResponse
  | Except.error _ => none

/-- The quote query `Client.quote` builds (src/lib/client.js lines 122-128). -/
def Client.quoteQueryOf (env : ClientEnv) (params_sourceAmount params_destinationAmount : Option String)
    (params_destinationAddress : String) (params_destinationExpiryDuration : Option ℚ) : QuoteQuery :=
  { source_address := env.account
    source_amount := params_sourceAmount
    destination_address := params_destinationAddress
    destination_amount := params_destinationAmount
    destination_expiry_duration := params_destinationExpiryDuration }

/-- Parameters of `Client.quote`. -/
structure ClientQuoteParams where
  sourceAmount : Option String
  destinationAmount : Option String
  destinationAddress : String
  destinationExpiryDuration : Option ℚ
  connectors : Option (List String)
deriving DecidableEq, Repr

/-- The connector set `Client.quote` fans out to (src/lib/client.js line 130):
`params.connectors || (yield this.getConnectors())` — note that an explicit
empty array is truthy in JS and is used as given. -/
def Client.connectorsOf (env : ClientEnv) (params : ClientQuoteParams) : List String :=
  match params.connectors with
  | some cs => cs
  | none => Client.getConnectors env

/-- The connector-discovery interactions of `Client.quote`: one `getConnectors`
lookup exactly when `params.connectors` is absent. -/
def Client.lookupCallsOf (params : ClientQuoteParams) : List NetCall :=
  match params.connectors with
  | some _ => []
  | none => [NetCall.connectorLookup]

/-- The per-connector quote results of `Client.quote`'s fan-out after dropping
`undefined` results (src/lib/client.js lines 132-134). -/
def Client.quotesOf (env : ClientEnv) (params : ClientQuoteParams) : List ConnQuote :=
  ((Client.connectorsOf env params).map (fun connector =>
    Client._getQuote env connector
      (Client.quoteQueryOf env params.sourceAmount params.destinationAmount
        params.destinationAddress params.destinationExpiryDuration))).filterMap id

/-- Embedding of `Client.quote` (src/lib/client.js lines 104-145). Returns the
settlement of the returned promise paired with the list of network interactions
performed, in order. Mirrors the source: amount validation first; same-ledger
short circuit (destination address starts with the plugin's ledger `prefix`)
second; otherwise fan out one `_getQuote` per connector, drop `undefined`
results, return `undefined` when none remain, else reduce with
`getCheaperQuote` and rename keys. -/
def Client.quote (env : ClientEnv) (params : ClientQuoteParams) :
    Except String (Option ClientQuoteResult) × List NetCall :=
  if (if truthyStr params.sourceAmount
      then truthyStr params.destinationAmount
      else !truthyStr params.destinationAmount) then
    (Except.error "Should provide source or destination amount but not both", [])
  else if jsStartsWith env.ledgerPfx params.destinationAddress then
    let amount := if truthyStr params.sourceAmount then params.sourceAmount
                  else params.destinationAmount
    (Except.ok (some { sourceAmount := amount
                       destinationAmount := amount
                       connectorAccount := none
                       sourceExpiryDuration := params.destinationExpiryDuration }), [])
  else
    let calls := Client.lookupCallsOf params ++
      (Client.connectorsOf env params).map NetCall.quoteRequest
    match Client.quotesOf env params with
    | [] => (Except.ok none, calls)
    | q :: qs =>
      let bestQuote := qs.foldl getCheaperQuote q
      (Except.ok (some { sourceAmount := some bestQuote.source_amount
                         destinationAmount := some bestQuote.destination_amount
                         connectorAccount := bestQuote.source_connector_account
                         sourceExpiryDuration := bestQuote.source_expiry_duration }), calls)

/-- Parameters of `Client.sendQuotedPayment` (src/lib/client.js lines 147-159). -/
structure PaymentParams where
  sourceAmount : Option String
  destinationAmount : Option String
  destinationAccount : Option String
  connectorAccount : Option String
  destinationMemo : Option String
  expiresAt : Option String
  executionCondition : Option String
  unsafeOptimisticTransport : Bool
  uuid : Option String
deriving DecidableEq, Repr

/-- The ILP payment payload serialized into the transfer
(src/lib/client.js lines 178-182); the serialization itself is opaque,
so the packet is modelled by the fields it carries. -/
structure IlpPayment where
  account : String
  amount : String
  data : Option String
deriving DecidableEq, Repr

/-- A transfer handed to `plugin.sendTransfer` (src/lib/client.js
lines 190-198 and 203-211). -/
structure Transfer where
  id : String
  account : String
  ledger : String
  amount : String
  ilp : IlpPayment
  executionCondition : Option String
  expiresAt : Option String
deriving DecidableEq, Repr

/-- Embedding of `Client.sendQuotedPayment` (src/lib/client.js lines 159-214).
`pfx` is `plugin.getInfo().prefix` and `freshId` the uuid that `uuid.v4()`
would generate. `Except.error m` is the rejected promise with message `m`;
`Except.ok t` means exactly one transfer `t` was submitted via
`plugin.sendTransfer`. -/
def Client.sendQuotedPayment (pfx freshId : String) (params : PaymentParams) :
    Except String Transfer :=
  if !truthyStr params.executionCondition ∧ !params.unsafeOptimisticTransport then
    Except.error "executionCondition must be provided unless unsafeOptimisticTransport is true"
  else if truthyStr params.executionCondition ∧ !truthyStr params.expiresAt then
    Except.error "executionCondition should not be used without expiresAt"
  else if !truthyStr params.sourceAmount then
    Except.error "sourceAmount must be provided"
  else if !truthyStr params.destinationAmount then
    Except.error "destinationAmount must be provided"
  else if !truthyStr params.destinationAccount then
    Except.error "destinationAccount must be provided"
  else
    let ilpPayment : IlpPayment :=
      { account := (params.destinationAccount).getD ""
        amount := (params.destinationAmount).getD ""
        data := params.destinationMemo }
    let id := if truthyStr params.uuid then (params.uuid).getD "" else freshId
    if !truthyStr params.connectorAccount then
      if params.sourceAmount ≠ params.destinationAmount then
        Except.error "sourceAmount and destinationAmount must be equivalent for local transfers"
      else
        Except.ok { id := id
                    account := (params.destinationAccount).getD ""
                    ledger := pfx
                    amount := (params.sourceAmount).getD ""
                    ilp := ilpPayment
                    executionCondition := params.executionCondition
                    expiresAt := params.expiresAt }
    else
      Except.ok { id := id
                  account := (params.connectorAccount).getD ""
                  ledger := pfx
                  amount := (params.sourceAmount).getD ""
                  ilp := ilpPayment
                  executionCondition := params.executionCondition
                  expiresAt := params.expiresAt }

/-- The state of one pending correlated request managed by
`Client._sendAndReceiveMessage` / `Client._onIncomingMessage`
(src/lib/client.js lines 245-278), for a fixed request id:
whether `pendingMessages` still holds the entry, whether the timeout timer is
still armed, and the settlement of the returned promise (`none` = unsettled;
JS promises settle at most once, later resolve/reject calls are no-ops). -/
structure PendingState where
  inMap : Bool
  timerActive : Bool
  promise : Option (Except String String)
deriving Repr

/-- First-settlement-wins semantics of a JS promise. -/
def settleOnce (p : Option (Except String String)) (v : Except String String) :
    Option (Except String String) :=
  match p with
  | none => some v
  | some w => some w

/-- State just after `_sendAndReceiveMessage` registers the entry and arms the
timer (src/lib/client.js lines 248-252). -/
def pendingInit : PendingState :=
  { inMap := true, timerActive := true, promise := none }

/-- Events that can target a pending request id: the timeout callback firing,
an incoming message carrying that id with a given `method` and payload, and a
rejection of the `plugin.sendMessage` promise. -/
inductive CorrEvent where
  | timeoutFire : CorrEvent
  | incoming (method : String) (payload : String) : CorrEvent
  | sendFailure (err : String) : CorrEvent
deriving DecidableEq, Repr

/-- Embedding of the three handlers that act on a pending entry:
the `setTimeout` callback (src/lib/client.js lines 249-251, fires only while
the timer is armed, rejects and disarms but does not touch the map), the
`sendMessage` catch handler (lines 253-257, rejects, disarms, deletes), and
`Client._onIncomingMessage` (lines 261-278: no pending entry means no effect;
method `error` rejects, method `quote_response` resolves, both then clear the
timer and delete the entry; any other method returns before doing either). -/
def Client.pendingStep (s : PendingState) (e : CorrEvent) : PendingState :=
  match e with
  | CorrEvent.timeoutFire =>
    if s.timerActive then
      { s with
        promise := settleOnce s.promise (Except.error "Timed out while awaiting response message")
        timerActive := false }
    else s
  | CorrEvent.incoming method payload =>
    if s.inMap then
      if method = "error" then
        { inMap := false, timerActive := false
          promise := settleOnce s.promise (Except.error payload) }
      else if method = "quote_response" then
        { inMap := false, timerActive := false
          promise := settleOnce s.promise (Except.ok payload) }
      else s
    else s
  | CorrEvent.sendFailure err =>
    { inMap := false, timerActive := false
      promise := settleOnce s.promise (Except.error err) }

/-- Result of a routing-table best-hop lookup (the fields of a hop that
`Core._quote`, `hopToQuote` and `getExpiryDurations` consume). -/
structure Hop where
  sourceLedger : String
  destinationLedger : String
  finalLedger : String
  connector : String
  destinationCreditAccount : String
  sourceAmount : String
  destinationAmount : String
  finalAmount : String
  minMessageWindow : ℚ
  additionalInfo : Option String
deriving DecidableEq, Repr

/-- The `destinationPrecisionAndScale` object of a `Core.quote` query. -/
structure PrecisionScale where
  precision : Option ℕ
  scale : Option ℕ
deriving DecidableEq, Repr

/-- Parameters of `Core.quote` (src/lib/core.js lines 75-88). -/
structure CoreQuery where
  sourceAddress : String
  destinationAddress : String
  sourceAmount : Option String
  destinationAmount : Option String
  sourceExpiryDuration : Option ℚ
  destinationExpiryDuration : Option ℚ
  destinationPrecisionAndScale : Option PrecisionScale
deriving DecidableEq, Repr

/-- The tail-quote query `Core._quote` sends to the next connector
(src/lib/core.js lines 119-133); absent keys are `none` (`omitUndefined`). -/
structure TailQuery where
  source_address : String
  source_amount : Option String
  destination_address : String
  destination_amount : Option String
  source_expiry_duration : Option ℚ
  destination_expiry_duration : Option ℚ
  destination_precision : Option ℕ
  destination_scale : Option ℕ
  slippage : ℚ
deriving DecidableEq, Repr

/-- A remote connector's tail-quote response body as consumed by `Core._quote`
(expiry durations already as numbers, mirroring the `parseFloat` applications). -/
structure TailQuote where
  source_amount : String
  destination_amount : String
  destination_ledger : String
  source_expiry_duration : ℚ
  destination_expiry_duration : ℚ
deriving DecidableEq, Repr

/-- The quote object `Core._quote` returns (src/lib/core.js lines 102-149);
`additionalInfo` is only present on the local path. -/
structure CoreQuote where
  connectorAccount : String
  sourceLedger : String
  nextLedger : String
  destinationLedger : String
  sourceAmount : String
  destinationAmount : String
  minMessageWindow : ℚ
  additionalInfo : Option String
  sourceExpiryDuration : Option ℚ
  destinationExpiryDuration : Option ℚ
deriving DecidableEq, Repr

/-- Embedding of `parseDuration` (src/lib/core.js lines 186-188): a falsy
duration (absent or zero) becomes `undefined`; `parseFloat` on a number is the
identity. -/
def parseDuration (expiryDuration : Option ℚ) : Option ℚ :=
  if truthyQ expiryDuration then expiryDuration else none

/-- Embedding of `getExpiryDurations` (src/lib/core.js lines 190-197), returning
the pair (sourceExpiryDuration, destinationExpiryDuration). A falsy first choice
falls back to the derived value; when the operand of the derivation is itself
`undefined` JS would produce NaN — modelled as absent, a combination `_quote`
never produces (at most one of the two arguments it passes is absent). -/
def getExpiryDurations (sourceExpiryDuration destinationExpiryDuration : Option ℚ)
    (minMessageWindow : ℚ) : Option ℚ × Option ℚ :=
  (if truthyQ sourceExpiryDuration then sourceExpiryDuration
   else destinationExpiryDuration.map (fun d => d + minMessageWindow),
   if truthyQ destinationExpiryDuration then destinationExpiryDuration
   else sourceExpiryDuration.map (fun s => s - minMessageWindow))

/-- JS `String.prototype.split` on the dot character, over a character list
(`"".split(".")` is `[""]`, so the base case is one empty field). -/
def splitOnDot : List Char → List (List Char)
  | [] => [[]]
  | c :: rest =>
    match splitOnDot rest with
    | [] => [[c]]
    | field :: fields =>
      if c = '.' then [] :: field :: fields else (c :: field) :: fields

/-- Embedding of `getLedgerPrefix` (src/lib/core.js lines 182-184):
`address.split('.').slice(0, -1).join('.') + '.'` — drop the last
dot-separated component of the address and re-append the delimiter. -/
def ledgerPrefixOf (address : String) : String :=
  String.intercalate "." (((splitOnDot address.toList).dropLast).map List.asString) ++ "."

/-- Left-pad a digit string with zeros up to length `n`. -/
def padZeros (n : ℕ) (s : String) : String :=
  String.mk (List.replicate (n - s.length) '0') ++ s

/-- Render `q` with exactly `scale` decimal places, rounding toward zero:
the behaviour of `new BigNumber(amount).toFixed(scale, BigNumber.ROUND_DOWN)`
on nonnegative amounts. -/
def ratToFixedDown (scale : ℕ) (q : ℚ) : String :=
  let p : ℤ := q.num * (10 : ℤ) ^ scale
  let mAbs : ℕ := p.natAbs / q.den
  let sign := if p < 0 ∧ mAbs ≠ 0 then "-" else ""
  if scale = 0 then sign ++ toString (mAbs)
  else sign ++ toString (mAbs / 10 ^ scale) ++ "." ++ padZeros scale (toString (mAbs % 10 ^ scale))

/-- The environment `Core` runs against: the routing-table oracle
(`tables.findBestHopForSourceAmount` / `tables.findBestHopForDestinationAmount`,
taking a source ledger, a destination address and an amount, `none` when no
hop exists), the registered plugins (`getAccount ledger` =
`getPlugin(ledger).getAccount()`, `scaleOf ledger` =
`getPlugin(ledger).getInfo().scale`; a plugin is assumed registered for every
ledger a returned hop names), and `remoteQuote connector query`, the outcome of
`util.getQuote` — the response body, or `none` when the request failed or timed
out (src/lib/util.js catches every error and returns `undefined`). -/
structure CoreEnv where
  findBestHopForSourceAmount : String → String → Option String → Option Hop
  findBestHopForDestinationAmount : String → String → Option String → Option Hop
  getAccount : String → String
  scaleOf : String → ℕ
  remoteQuote : String → TailQuery → Option TailQuote

/-- Embedding of `Core._findBestHopForAmount` (src/lib/core.js lines 152-158):
by destination amount when `sourceAmount` is `undefined`, else by source
amount. -/
def Core._findBestHopForAmount (env : CoreEnv) (sourceLedger destinationAddress : String)
    (sourceAmount destinationAmount : Option String) : Option Hop :=
  match sourceAmount with
  | none => env.findBestHopForDestinationAmount sourceLedger destinationAddress destinationAmount
  | some sa => env.findBestHopForSourceAmount sourceLedger destinationAddress (some sa)

/-- Embedding of `Core._roundDown` (src/lib/core.js lines 160-164). -/
def Core._roundDown (env : CoreEnv) (ledger amount : String) : String :=
  ratToFixedDown (env.scaleOf ledger) (decToRat amount)

/-- The error with which the embedded `Core._quote` models a thrown JS
`TypeError` (a property read on `undefined`). -/
def typeErrorMsg : String := "TypeError: cannot read property of undefined"

/-- The `sourceExpiryDuration` local of `Core._quote`
(src/lib/core.js line 98): `parseDuration(query.sourceExpiryDuration)`. -/
def Core.sedOf (query : CoreQuery) : Option ℚ :=
  parseDuration query.sourceExpiryDuration

/-- The `destinationExpiryDuration` local of `Core._quote`
(src/lib/core.js lines 99-100): parse the caller's value when either duration
is truthy, else default to 5 seconds. -/
def Core.dedOf (query : CoreQuery) : Option ℚ :=
  if truthyQ (Core.sedOf query) || truthyQ query.destinationExpiryDuration
  then parseDuration query.destinationExpiryDuration
  else some 5

/-- The `headHop` of `Core._quote` as first assigned (src/lib/core.js
lines 112-117): looked up only for a truthy `query.sourceAmount`, otherwise
left `undefined`. -/
def Core.headHop0Of (env : CoreEnv) (query : CoreQuery) (hop : Hop) : Option Hop :=
  if truthyStr query.sourceAmount then
    env.findBestHopForSourceAmount hop.sourceLedger hop.destinationCreditAccount
      query.sourceAmount
  else none

/-- The `source_amount` field of the tail query (src/lib/core.js lines
121-123): absent for a destination-amount query; otherwise the head hop's
destination amount rounded down to its ledger's scale — reading
`headHop.destinationLedger` on an absent head hop throws. -/
def Core.tailSourceAmountOf (env : CoreEnv) (query : CoreQuery) (hop : Hop) :
    Except String (Option String) :=
  match query.sourceAmount with
  | none => Except.ok none
  | some _ =>
    match Core.headHop0Of env query hop with
    | none => Except.error typeErrorMsg
    | some headHop =>
      Except.ok (some (Core._roundDown env headHop.destinationLedger headHop.destinationAmount))

/-- The tail-quote query of `Core._quote` (src/lib/core.js lines 119-133). -/
def Core.tailQueryOf (query : CoreQuery) (hop : Hop) (tailSourceAmount : Option String) :
    TailQuery :=
  { source_address := hop.destinationCreditAccount
    source_amount := tailSourceAmount
    destination_address := query.destinationAddress
    destination_amount := match query.sourceAmount with
      | none => some hop.finalAmount
      | some _ => none
    source_expiry_duration := if truthyQ (Core.sedOf query)
      then (Core.sedOf query).map (fun s => s - hop.minMessageWindow)
      else none
    destination_expiry_duration := Core.dedOf query
    destination_precision := (query.destinationPrecisionAndScale.getD
      { precision := none, scale := none }).precision
    destination_scale := (query.destinationPrecisionAndScale.getD
      { precision := none, scale := none }).scale
    slippage := 0 }

/-- The locally-assembled quote of `Core._quote` (src/lib/core.js lines
106-110): `Object.assign(getExpiryDurations(...), hopToQuote(hop),
{connectorAccount, sourceLedger})`. -/
def Core.localQuoteOf (env : CoreEnv) (query : CoreQuery) (hop : Hop) : CoreQuote :=
  { connectorAccount := env.getAccount hop.sourceLedger
    sourceLedger := hop.sourceLedger
    nextLedger := hop.destinationLedger
    destinationLedger := hop.finalLedger
    sourceAmount := hop.sourceAmount
    destinationAmount := hop.finalAmount
    minMessageWindow := hop.minMessageWindow
    additionalInfo := hop.additionalInfo
    sourceExpiryDuration :=
      (getExpiryDurations (Core.sedOf query) (Core.dedOf query) hop.minMessageWindow).1
    destinationExpiryDuration :=
      (getExpiryDurations (Core.sedOf query) (Core.dedOf query) hop.minMessageWindow).2 }

/-- The `headHop` of `Core._quote` after the tail quote arrives
(src/lib/core.js lines 136-139): recomputed by destination amount using the
tail quote's source amount when the query fixed the destination amount. -/
def Core.headHop1Of (env : CoreEnv) (query : CoreQuery) (hop : Hop) (tailQuote : TailQuote) :
    Option Hop :=
  if truthyStr query.destinationAmount then
    env.findBestHopForDestinationAmount hop.sourceLedger hop.destinationCreditAccount
      (some tailQuote.source_amount)
  else Core.headHop0Of env query hop

/-- The composed end-to-end quote of `Core._quote` (src/lib/core.js lines
141-149): head hop plus tail quote, minimum message window summed with the
tail's expiry-duration delta. -/
def Core.composedQuoteOf (env : CoreEnv) (query : CoreQuery) (hop headHop : Hop)
    (tailQuote : TailQuote) : CoreQuote :=
  { connectorAccount := env.getAccount hop.sourceLedger
    sourceLedger := hop.sourceLedger
    nextLedger := headHop.destinationLedger
    destinationLedger := tailQuote.destination_ledger
    sourceAmount := headHop.sourceAmount
    destinationAmount := tailQuote.destination_amount
    minMessageWindow := headHop.minMessageWindow +
      (tailQuote.source_expiry_duration - tailQuote.destination_expiry_duration)
    additionalInfo := none
    sourceExpiryDuration :=
      (getExpiryDurations (Core.sedOf query) (Core.dedOf query)
        (headHop.minMessageWindow +
          (tailQuote.source_expiry_duration - tailQuote.destination_expiry_duration))).1
    destinationExpiryDuration :=
      (getExpiryDurations (Core.sedOf query) (Core.dedOf query)
        (headHop.minMessageWindow +
          (tailQuote.source_expiry_duration - tailQuote.destination_expiry_duration))).2 }

/-- Embedding of `Core._quote` (src/lib/core.js lines 90-150).
`Except.ok` is the value the returned promise resolves to (`none` = `null` /
`undefined`); `Except.error` models a thrown exception rejecting the promise.
Control flow mirrors the source: no hop means `null`; a hop whose `finalLedger`
is the destination's ledger prefix yields the locally-assembled quote;
otherwise a tail quote is requested from `hop.connector` and composed with the
recomputed head hop. Property reads on an absent `headHop` or an absent
`tailQuote` (`headHop.destinationLedger`, `tailQuote.source_amount`,
`tailQuote.source_expiry_duration`, `headHop.minMessageWindow`) throw: the
source has no guard for a missing head hop or a declined/timed-out tail
quote. -/
def Core._quote (env : CoreEnv) (query : CoreQuery) : Except String (Option CoreQuote) :=
  match Core._findBestHopForAmount env query.sourceAddress query.destinationAddress
      query.sourceAmount query.destinationAmount with
  | none => Except.ok none
  | some hop =>
    if ledgerPrefixOf query.destinationAddress = hop.finalLedger then
      Except.ok (some (Core.localQuoteOf env query hop))
    else
      match Core.tailSourceAmountOf env query hop with
      | Except.error e => Except.error e
      | Except.ok tailSourceAmount =>
        match env.remoteQuote hop.connector (Core.tailQueryOf query hop tailSourceAmount) with
        | none => Except.error typeErrorMsg
        | some tailQuote =>
          match Core.headHop1Of env query hop tailQuote with
          | none => Except.error typeErrorMsg
          | some headHop =>
            Except.ok (some (Core.composedQuoteOf env query hop headHop tailQuote))

/-! ## Concrete fixtures used to instantiate the theorems -/

/-- A client whose single discovered connector declines every quote request
(error response "AssetsNotTradedError: broken"). -/
def declineEnv : ClientEnv :=
  { ledgerPfx := "example.blue."
    account := "example.blue.alice"
    infoConnectors := some ["example.blue.connie"]
    clientConnectors := none
    exchange := fun _ _ => Except.error "AssetsNotTradedError: broken" }

/-- A hop whose final ledger is the destination's own ledger (local path). -/
def localHop : Hop :=
  { sourceLedger := "example.blue."
    destinationLedger := "example.red."
    finalLedger := "example.red."
    connector := "http://connie.example"
    destinationCreditAccount := "example.red.connie"
    sourceAmount := "100"
    destinationAmount := "50"
    finalAmount := "50"
    minMessageWindow := 2
    additionalInfo := none }

/-- A routing table that always answers with `localHop`. -/
def localHopEnv : CoreEnv :=
  { findBestHopForSourceAmount := fun _ _ _ => some localHop
    findBestHopForDestinationAmount := fun _ _ _ => some localHop
    getAccount := fun ledger => ledger ++ "connie"
    scaleOf := fun _ => 2
    remoteQuote := fun _ _ => none }

/-- A hop that only reaches an intermediate connector (`finalLedger` is not the
destination's ledger), forcing the remote tail-quote path. -/
def multiHop : Hop :=
  { sourceLedger := "example.blue."
    destinationLedger := "example.red."
    finalLedger := "example.green."
    connector := "http://connie.example"
    destinationCreditAccount := "example.red.connie"
    sourceAmount := "100"
    destinationAmount := "50"
    finalAmount := "25"
    minMessageWindow := 2
    additionalInfo := none }

/-- A routing table that always answers with `multiHop` while every remote
tail-quote request fails (`util.getQuote` yields `undefined`). -/
def multiHopDeclineEnv : CoreEnv :=
  { findBestHopForSourceAmount := fun _ _ _ => some multiHop
    findBestHopForDestinationAmount := fun _ _ _ => some multiHop
    getAccount := fun ledger => ledger ++ "connie"
    scaleOf := fun _ => 2
    remoteQuote := fun _ _ => none }

/-- A routing table with no route at all. -/
def noRouteEnv : CoreEnv :=
  { findBestHopForSourceAmount := fun _ _ _ => none
    findBestHopForDestinationAmount := fun _ _ _ => none
    getAccount := fun _ => ""
    scaleOf := fun _ => 0
    remoteQuote := fun _ _ => none }

/-- A destination-amount `Core.quote` query that supplies both expiry
durations (10 and 3 seconds), aimed inside `localHop`'s final ledger. -/
def bothDurationsQuery : CoreQuery :=
  { sourceAddress := "example.blue.alice", destinationAddress := "example.red.bob",
    sourceAmount := none, destinationAmount := some "50",
    sourceExpiryDuration := some 10, destinationExpiryDuration := some 3,
    destinationPrecisionAndScale := none }

/-- The same query with no expiry durations supplied. -/
def noDurationsQuery : CoreQuery :=
  { bothDurationsQuery with sourceExpiryDuration := none, destinationExpiryDuration := none }

/-- The local quote `Core._quote` produces for `noDurationsQuery` against
`localHopEnv`: destination expiry defaulted to 5, source expiry derived as
5 plus the hop's 2-second message window. -/
def noDurationsLocalQuote : CoreQuote :=
  { connectorAccount := "example.blue.connie", sourceLedger := "example.blue.",
    nextLedger := "example.red.", destinationLedger := "example.red.",
    sourceAmount := "100", destinationAmount := "50", minMessageWindow := 2,
    additionalInfo := none, sourceExpiryDuration := some (5 + 2),
    destinationExpiryDuration := some 5 }

/-- A destination-amount query whose destination lies beyond `multiHop`'s
final ledger, forcing the remote tail-quote path. -/
def multiHopQuery : CoreQuery :=
  { sourceAddress := "example.blue.alice",
    destinationAddress := "example.green.sub.bob",
    sourceAmount := none, destinationAmount := some "25",
    sourceExpiryDuration := none, destinationExpiryDuration := none,
    destinationPrecisionAndScale := none }

/-- The same multi-hop query fixed by source amount instead. -/
def multiHopSourceQuery : CoreQuery :=
  { multiHopQuery with sourceAmount := some "100", destinationAmount := none }

/-- The condition/expiry validations of `sendQuotedPayment`
(src/lib/client.js lines 160-166) pass. -/
def condChecksPass (params : PaymentParams) : Prop :=
  (truthyStr params.executionCondition = true ∨ params.unsafeOptimisticTransport = true) ∧
  (truthyStr params.executionCondition = true → truthyStr params.expiresAt = true)

/-- A valid conditional same-ledger payment with string-equal amounts. -/
def equalAmountsPayment : PaymentParams :=
  { sourceAmount := some "10", destinationAmount := some "10",
    destinationAccount := some "example.blue.bob", connectorAccount := none,
    destinationMemo := none, expiresAt := some "2016-01-01T00:00:00Z",
    executionCondition := some "cc:0:", unsafeOptimisticTransport := false,
    uuid := none }

/-- The same payment with amounts equal numerically but not as strings. -/
def unequalAmountsPayment : PaymentParams :=
  { equalAmountsPayment with destinationAmount := some "10.0" }

/-- The same payment with `destinationAccount` missing. -/
def noAccountPayment : PaymentParams :=
  { equalAmountsPayment with destinationAccount := none }

/-! ## Claim C1: pairwise cheapest-quote reduction -/

/-- C1 counterexample: the claim says a quote is never preferred over another
whose `source_amount` is strictly smaller, and that on a full tie the earlier
(left) quote is kept. But `getCheaperQuote` checks `destination_amount` without
first requiring the `source_amount`s to be equal: here the left quote has the
strictly larger source amount (2 > 1) yet wins on its larger destination
amount. -/
theorem C1_cex :
    getCheaperQuote
      { source_amount := "2", destination_amount := "5",
        source_connector_account := some "connA", source_expiry_duration := none }
      { source_amount := "1", destination_amount := "1",
        source_connector_account := some "connB", source_expiry_duration := none } =
      { source_amount := "2", destination_amount := "5",
        source_connector_account := some "connA", source_expiry_duration := none } ∧
    decToRat "1" < decToRat "2" := by
  constructor
  · simp +decide [getCheaperQuote, decToRat, digitsVal, digitVal, String.toList,
      List.takeWhile, List.dropWhile]
  · simp +decide [decToRat, digitsVal, digitVal, String.toList,
      List.takeWhile, List.dropWhile]

/-- C1 (amended): in the pairwise left-to-right reduction, the left quote `q1`
is kept when its `source_amount` is strictly smaller, OR (regardless of how the
source amounts compare) when its `destination_amount` is strictly larger; in
all remaining cases — including the full tie — the right quote `q2` is kept.
In particular, with equal source amounts the quote with strictly larger
destination amount still wins, but a quote can be preferred over another whose
source amount is strictly smaller. -/
theorem C1_thm (q1 q2 : ConnQuote) :
    (decToRat q1.source_amount < decToRat q2.source_amount → getCheaperQuote q1 q2 = q1) ∧
    (decToRat q2.destination_amount < decToRat q1.destination_amount → getCheaperQuote q1 q2 = q1) ∧
    (decToRat q2.source_amount ≤ decToRat q1.source_amount →
      decToRat q1.destination_amount ≤ decToRat q2.destination_amount →
      getCheaperQuote q1 q2 = q2) := by
  unfold getCheaperQuote
  refine ⟨fun h => ?_, fun h => ?_, fun h1 h2 => ?_⟩
  · rw [if_pos h]
  · by_cases hs : decToRat q1.source_amount < decToRat q2.source_amount
    · rw [if_pos hs]
    · rw [if_neg hs, if_pos h]
  · rw [if_neg (not_lt.mpr h1), if_neg (not_lt.mpr h2)]

/-- C1 witness: the spec's own example — with source amounts tied at 1 and
destination amounts 1 versus 2, the right quote (larger destination) wins. -/
theorem C1_wit :
    getCheaperQuote
      { source_amount := "1", destination_amount := "1",
        source_connector_account := none, source_expiry_duration := none }
      { source_amount := "1", destination_amount := "2",
        source_connector_account := none, source_expiry_duration := none } =
      { source_amount := "1", destination_amount := "2",
        source_connector_account := none, source_expiry_duration := none } := by
  refine (C1_thm _ _).2.2 ?_ ?_ <;>
    simp +decide [decToRat, digitsVal, digitVal, String.toList,
      List.takeWhile, List.dropWhile]

/-! ## Claim C6: mutually exclusive amount validation in Client.quote -/

/-- C6: a `Client.quote` call providing both amounts or neither fails with the
single validation message "Should provide source or destination amount but not
both" and performs no network interaction at all; when exactly one amount is
provided this validation never fires (the promise settlement is never that
error). -/
theorem C6_thm (env : ClientEnv) (params : ClientQuoteParams) :
    (truthyStr params.sourceAmount = truthyStr params.destinationAmount →
      Client.quote env params =
        (Except.error "Should provide source or destination amount but not both", [])) ∧
    (truthyStr params.sourceAmount ≠ truthyStr params.destinationAmount →
      (Client.quote env params).1 ≠
        Except.error "Should provide source or destination amount but not both") := by
  constructor
  · intro h
    unfold Client.quote
    cases hs : truthyStr params.sourceAmount <;> rw [hs] at h <;> simp [hs, ← h]
  · intro h
    unfold Client.quote
    have hcond : (if truthyStr params.sourceAmount then truthyStr params.destinationAmount
        else !truthyStr params.destinationAmount) = false := by
      cases hs : truthyStr params.sourceAmount <;> cases hd : truthyStr params.destinationAmount <;>
        simp_all
    rw [hcond]
    simp only [Bool.false_eq_true, if_false]
    by_cases hp : jsStartsWith env.ledgerPfx params.destinationAddress = true
    · simp [hp]
    · simp only [hp, if_false]
      cases Client.quotesOf env params <;> simp

/-- C6 witness: supplying both amounts fails with the single validation message
before any network interaction. -/
theorem C6_wit :
    Client.quote declineEnv
      { sourceAmount := some "1", destinationAmount := some "2",
        destinationAddress := "example.red.bob", destinationExpiryDuration := none,
        connectors := none } =
      (Except.error "Should provide source or destination amount but not both", []) :=
  (C6_thm declineEnv _).1 (by decide)

/-- Helper: with exactly one of the two amounts truthy, the validation
condition of `Client.quote` is false. -/
theorem clientQuote_validCond_false (params : ClientQuoteParams)
    (h : truthyStr params.sourceAmount ≠ truthyStr params.destinationAmount) :
    (if truthyStr params.sourceAmount then truthyStr params.destinationAmount
     else !truthyStr params.destinationAmount) = false := by
  cases hs : truthyStr params.sourceAmount <;> cases hd : truthyStr params.destinationAmount <;>
    simp_all

/-! ## Claim C4: same-ledger short circuit of Client.quote -/

/-- C4: when validation passes (exactly one amount supplied) and the
destination address starts with the client's own ledger prefix, `Client.quote`
resolves to a quote whose `sourceAmount` and `destinationAmount` both equal the
supplied amount, carries the caller's `destinationExpiryDuration` value
unchanged (under the result's `sourceExpiryDuration` key, as in the source),
and performs no network interaction whatsoever. -/
theorem C4_thm (env : ClientEnv) (params : ClientQuoteParams)
    (hone : truthyStr params.sourceAmount ≠ truthyStr params.destinationAmount)
    (hsame : jsStartsWith env.ledgerPfx params.destinationAddress = true) :
    Client.quote env params =
      (Except.ok (some
        { sourceAmount := if truthyStr params.sourceAmount then params.sourceAmount
                          else params.destinationAmount
          destinationAmount := if truthyStr params.sourceAmount then params.sourceAmount
                               else params.destinationAmount
          connectorAccount := none
          sourceExpiryDuration := params.destinationExpiryDuration }), []) := by
  unfold Client.quote
  rw [clientQuote_validCond_false params hone]
  simp [hsame]

/-- C4 witness: a same-ledger quote for source amount "5" with requested
destination expiry duration 6 echoes the amount into both fields, keeps the
duration value, and makes no network call. -/
theorem C4_wit :
    Client.quote declineEnv
      { sourceAmount := some "5", destinationAmount := none,
        destinationAddress := "example.blue.bob", destinationExpiryDuration := some 6,
        connectors := none } =
      (Except.ok (some
        { sourceAmount := some "5", destinationAmount := some "5",
          connectorAccount := none, sourceExpiryDuration := some 6 }), []) :=
  C4_thm declineEnv _ (by decide) (by decide)

/-! ## Claim C7: declined connectors are swallowed, full decline is absent -/

/-- C7: a failed exchange (error response, timeout, or transport failure — any
`Except.error` settlement) never propagates out of `Client._getQuote`: the
per-connector result is `undefined`. And when every connector in the fan-out
yields `undefined`, `Client.quote` resolves to `undefined` (an absent quote,
not an error), having still performed the fan-out. -/
theorem C7_thm (env : ClientEnv) (params : ClientQuoteParams)
    (hone : truthyStr params.sourceAmount ≠ truthyStr params.destinationAmount)
    (hnl : jsStartsWith env.ledgerPfx params.destinationAddress = false)
    (hall : ∀ connector ∈ Client.connectorsOf env params,
      Client._getQuote env connector
        (Client.quoteQueryOf env params.sourceAmount params.destinationAmount
          params.destinationAddress params.destinationExpiryDuration) = none) :
    (∀ connector q e, env.exchange connector q = Except.error e →
      Client._getQuote env connector q = none) ∧
    Client.quote env params =
      (Except.ok none,
        Client.lookupCallsOf params ++
          (Client.connectorsOf env params).map NetCall.quoteRequest) := by
  constructor
  · intro connector q e he
    unfold Client._getQuote
    rw [he]
  · unfold Client.quote
    rw [clientQuote_validCond_false params hone]
    simp only [Bool.false_eq_true, if_false, hnl]
    have hq : Client.quotesOf env params = [] := by
      unfold Client.quotesOf
      rw [List.filterMap_map]
      exact List.filterMap_eq_nil_iff.mpr hall
    rw [hq]

/-- C7 witness: with a single connector that declines every request, the
overall quote resolves to an absent result after one connector lookup and one
quote request. -/
theorem C7_wit :
    Client.quote declineEnv
      { sourceAmount := some "1", destinationAmount := none,
        destinationAddress := "example.red.bob", destinationExpiryDuration := none,
        connectors := none } =
      (Except.ok none,
        [NetCall.connectorLookup, NetCall.quoteRequest "example.blue.connie"]) :=
  (C7_thm declineEnv _ (by decide) (by decide) (fun _ _ => rfl)).2


/-! ## Claim C8: same-ledger payment amount equality in sendQuotedPayment -/

/-- C8: with `connectorAccount` absent, a call whose `sourceAmount` and
`destinationAmount` differ as strings (exact string comparison, `!==`) never
submits a transfer, and — once the preceding validations pass — rejects with
exactly the local-equivalence message; with string-equal amounts it submits
exactly one transfer, addressed directly to the destination account for the
source amount on the client's own ledger. -/
theorem C8_thm (pfx freshId : String) (params : PaymentParams)
    (hnc : truthyStr params.connectorAccount = false) :
    (params.sourceAmount ≠ params.destinationAmount →
      (∀ t, Client.sendQuotedPayment pfx freshId params ≠ Except.ok t) ∧
      (condChecksPass params → truthyStr params.sourceAmount = true →
        truthyStr params.destinationAmount = true →
        truthyStr params.destinationAccount = true →
        Client.sendQuotedPayment pfx freshId params =
          Except.error "sourceAmount and destinationAmount must be equivalent for local transfers")) ∧
    (params.sourceAmount = params.destinationAmount → condChecksPass params →
      truthyStr params.sourceAmount = true → truthyStr params.destinationAmount = true →
      truthyStr params.destinationAccount = true →
      ∃ t, Client.sendQuotedPayment pfx freshId params = Except.ok t ∧
        t.account = (params.destinationAccount).getD "" ∧
        t.amount = (params.sourceAmount).getD "" ∧
        t.ledger = pfx) := by
  constructor
  · intro hne
    constructor
    · intro t h
      unfold Client.sendQuotedPayment at h
      simp only [hnc, Bool.not_false, if_true] at h
      repeat' split at h
      all_goals simp_all
    · intro hcond hsa hda hacct
      have h1 : ¬((!truthyStr params.executionCondition) = true ∧
          (!params.unsafeOptimisticTransport) = true) := by
        rcases hcond.1 with h | h <;> simp [h]
      have h2 : ¬(truthyStr params.executionCondition = true ∧
          (!truthyStr params.expiresAt) = true) := by
        intro h
        have := hcond.2 h.1
        simp [this] at h
      unfold Client.sendQuotedPayment
      rw [if_neg h1, if_neg h2]
      simp only [hsa, hda, hacct, hnc, Bool.not_true, Bool.not_false,
        Bool.false_eq_true, if_false, if_true]
      rw [if_pos hne]
  · intro heq hcond hsa hda hacct
    have h1 : ¬((!truthyStr params.executionCondition) = true ∧
        (!params.unsafeOptimisticTransport) = true) := by
      rcases hcond.1 with h | h <;> simp [h]
    have h2 : ¬(truthyStr params.executionCondition = true ∧
        (!truthyStr params.expiresAt) = true) := by
      intro h
      have := hcond.2 h.1
      simp [this] at h
    unfold Client.sendQuotedPayment
    rw [if_neg h1, if_neg h2]
    simp only [hsa, hda, hacct, hnc, Bool.not_true, Bool.not_false,
      Bool.false_eq_true, if_false, if_true]
    rw [if_neg (by simp [heq])]
    exact ⟨_, rfl, rfl, rfl, rfl⟩

/-- C8 witness: string-equal amounts with no connector account submit one
transfer, while amounts "10" versus "10.0" (numerically equal, string-unequal)
are rejected with the local-equivalence message. -/
theorem C8_wit :
    (Client.sendQuotedPayment "example.blue." "uuid-1" equalAmountsPayment).isOk = true ∧
    Client.sendQuotedPayment "example.blue." "uuid-1" unequalAmountsPayment =
      Except.error "sourceAmount and destinationAmount must be equivalent for local transfers" := by
  constructor
  · obtain ⟨t, ht, -⟩ := (C8_thm "example.blue." "uuid-1" equalAmountsPayment (by decide)).2
      rfl ⟨Or.inl (by decide), fun _ => by decide⟩ (by decide) (by decide) (by decide)
    rw [ht]
    rfl
  · exact ((C8_thm "example.blue." "uuid-1" unequalAmountsPayment (by decide)).1
      (by decide)).2 ⟨Or.inl (by decide), fun _ => by decide⟩ (by decide) (by decide) (by decide)

/-! ## Claim C10: missing required fields in sendQuotedPayment -/

/-- C10: once the condition/expiry validations pass, a call missing any of
`sourceAmount`, `destinationAmount`, or `destinationAccount` rejects with one
of the three "must be provided" messages, the named field genuinely being the
one missing, and never submits a transfer. -/
theorem C10_thm (pfx freshId : String) (params : PaymentParams)
    (hcond : condChecksPass params)
    (hmiss : truthyStr params.sourceAmount = false ∨
      truthyStr params.destinationAmount = false ∨
      truthyStr params.destinationAccount = false) :
    (∀ t, Client.sendQuotedPayment pfx freshId params ≠ Except.ok t) ∧
    ∃ msg, Client.sendQuotedPayment pfx freshId params = Except.error msg ∧
      ((msg = "sourceAmount must be provided" ∧ truthyStr params.sourceAmount = false) ∨
       (msg = "destinationAmount must be provided" ∧ truthyStr params.destinationAmount = false) ∨
       (msg = "destinationAccount must be provided" ∧ truthyStr params.destinationAccount = false)) := by
  have h1 : ¬((!truthyStr params.executionCondition) = true ∧
      (!params.unsafeOptimisticTransport) = true) := by
    rcases hcond.1 with h | h <;> simp [h]
  have h2 : ¬(truthyStr params.executionCondition = true ∧
      (!truthyStr params.expiresAt) = true) := by
    intro h
    have := hcond.2 h.1
    simp [this] at h
  unfold Client.sendQuotedPayment
  rw [if_neg h1, if_neg h2]
  by_cases hsa : truthyStr params.sourceAmount = true
  · by_cases hda : truthyStr params.destinationAmount = true
    · have hacct : truthyStr params.destinationAccount = false := by
        rcases hmiss with h | h | h
        · rw [hsa] at h; cases h
        · rw [hda] at h; cases h
        · exact h
      simp only [hsa, hda, hacct, Bool.not_true, Bool.not_false,
        Bool.false_eq_true, if_false, if_true]
      exact ⟨fun t h => Except.noConfusion h, _, rfl, Or.inr (Or.inr ⟨rfl, by simp [hacct]⟩)⟩
    · have hda' : truthyStr params.destinationAmount = false := by
        cases hd : truthyStr params.destinationAmount
        · rfl
        · exact absurd hd hda
      simp only [hsa, hda', Bool.not_true, Bool.not_false,
        Bool.false_eq_true, if_false, if_true]
      exact ⟨fun t h => Except.noConfusion h, _, rfl, Or.inr (Or.inl ⟨rfl, by simp [hda']⟩)⟩
  · have hsa' : truthyStr params.sourceAmount = false := by
      cases hs : truthyStr params.sourceAmount
      · rfl
      · exact absurd hs hsa
    simp only [hsa', Bool.not_false, if_true]
    exact ⟨fun t h => Except.noConfusion h, _, rfl, Or.inl ⟨rfl, by simp [hsa']⟩⟩

/-- C10 witness: omitting `destinationAccount` (valid condition/expiry, both
amounts present) rejects with its "must be provided" message. -/
theorem C10_wit :
    Client.sendQuotedPayment "example.blue." "uuid-2" noAccountPayment =
      Except.error "destinationAccount must be provided" := by
  obtain ⟨msg, hmsg, hcase⟩ := (C10_thm "example.blue." "uuid-2" noAccountPayment
    ⟨Or.inl (by decide), fun _ => by decide⟩ (Or.inr (Or.inr (by decide)))).2
  rcases hcase with ⟨h1, h2⟩ | ⟨h1, h2⟩ | ⟨h1, h2⟩
  · exact absurd h2 (by decide)
  · exact absurd h2 (by decide)
  · rw [h1] at hmsg
    exact hmsg

/-! ## Claim C2: pending-message lifecycle -/

/-- C2 counterexample: the claim says whichever outcome fires first removes the
entry for the id from `pendingMessages`. But the timeout callback only rejects
the promise: starting from a freshly registered entry, after the timeout fires
the entry is still in the map (while the promise is already rejected with the
timeout error). -/
theorem C2_cex :
    (Client.pendingStep pendingInit CorrEvent.timeoutFire).inMap = true ∧
    (Client.pendingStep pendingInit CorrEvent.timeoutFire).promise =
      some (Except.error "Timed out while awaiting response message") :=
  ⟨rfl, rfl⟩

/-- C2 (amended): a matching `quote_response` and an `error` response each
settle the promise, clear the timer, and remove the entry; the timeout outcome
settles (rejects) the promise and disarms the timer but leaves the entry in
the map (it is only removed later by a matching/error response or a send
failure). The promise itself settles at most once: whichever outcome fires
first fixes its value, and every later event leaves that value unchanged. -/
theorem C2_thm (s : PendingState) (payload : String) :
    (s.inMap = true →
      Client.pendingStep s (CorrEvent.incoming "quote_response" payload) =
        { inMap := false, timerActive := false,
          promise := settleOnce s.promise (Except.ok payload) }) ∧
    (s.inMap = true →
      Client.pendingStep s (CorrEvent.incoming "error" payload) =
        { inMap := false, timerActive := false,
          promise := settleOnce s.promise (Except.error payload) }) ∧
    (s.timerActive = true →
      Client.pendingStep s CorrEvent.timeoutFire =
        { inMap := s.inMap, timerActive := false,
          promise := settleOnce s.promise
            (Except.error "Timed out while awaiting response message") }) ∧
    (∀ v e, s.promise = some v → (Client.pendingStep s e).promise = some v) := by
  refine ⟨fun h => ?_, fun h => ?_, fun h => ?_, fun v e hv => ?_⟩
  · simp +decide [Client.pendingStep, h]
  · simp +decide [Client.pendingStep, h]
  · simp [Client.pendingStep, h]
  · cases e with
    | timeoutFire =>
      by_cases ht : s.timerActive = true <;> simp [Client.pendingStep, ht, settleOnce, hv]
    | incoming method payload2 =>
      by_cases hm : s.inMap = true
      · by_cases he : method = "error"
        · simp [Client.pendingStep, hm, he, settleOnce, hv]
        · by_cases hq : method = "quote_response" <;>
            simp [Client.pendingStep, hm, he, hq, settleOnce, hv]
      · simp [Client.pendingStep, hm, hv]
    | sendFailure err => simp [Client.pendingStep, settleOnce, hv]

/-- C2 witness: from a live entry with an unsettled promise, a matching
`quote_response` resolves the promise, cancels the timer, and removes the
entry. -/
theorem C2_wit :
    Client.pendingStep { inMap := true, timerActive := true, promise := none }
      (CorrEvent.incoming "quote_response" "fifty") =
      { inMap := false, timerActive := false, promise := some (Except.ok "fifty") } :=
  (C2_thm { inMap := true, timerActive := true, promise := none } "fifty").1 rfl

/-! ## Claim C9: no route means an absent result, not an exception -/

/-- C9: whenever the routing-table oracle (by source amount when
`query.sourceAmount` is defined, else by destination amount) returns no hop,
`Core.quote` resolves to `null` — it does not throw. -/
theorem C9_thm (env : CoreEnv) (query : CoreQuery)
    (h : Core._findBestHopForAmount env query.sourceAddress query.destinationAddress
      query.sourceAmount query.destinationAmount = none) :
    Core._quote env query = Except.ok none := by
  unfold Core._quote
  rw [h]

/-- C9 witness: an empty routing table yields `null` for a concrete query. -/
theorem C9_wit :
    Core._quote noRouteEnv
      { sourceAddress := "example.blue.alice", destinationAddress := "example.red.bob",
        sourceAmount := some "10", destinationAmount := none,
        sourceExpiryDuration := none, destinationExpiryDuration := none,
        destinationPrecisionAndScale := none } = Except.ok none :=
  C9_thm noRouteEnv _ rfl


/-! ## Claim C5: expiry-duration invariant of Core.quote -/

/-- A present nonzero duration is truthy. -/
theorem truthyQ_some_of_ne (q : ℚ) (h : q ≠ 0) : truthyQ (some q) = true := by
  simp [truthyQ, h]

/-- An absent duration is falsy. -/
theorem truthyQ_none : truthyQ (none : Option ℚ) = false := rfl

/-- Helper: when at most one of the query's expiry durations is truthy, the
expiry pair `Core._quote` attaches satisfies source = destination + window. -/
theorem eds_derived (query : CoreQuery) (w : ℚ)
    (hnb : truthyQ query.sourceExpiryDuration = false ∨
      truthyQ query.destinationExpiryDuration = false) :
    ∃ d, (getExpiryDurations (Core.sedOf query) (Core.dedOf query) w).2 = some d ∧
      (getExpiryDurations (Core.sedOf query) (Core.dedOf query) w).1 = some (d + w) := by
  unfold Core.dedOf Core.sedOf
  by_cases hs : truthyQ query.sourceExpiryDuration = true
  · have hd : truthyQ query.destinationExpiryDuration = false := by
      rcases hnb with h | h
      · rw [h] at hs; cases hs
      · exact h
    obtain ⟨s, hsv, hs0⟩ : ∃ s, query.sourceExpiryDuration = some s ∧ s ≠ 0 := by
      rcases hqs : query.sourceExpiryDuration with _ | s
      · rw [hqs] at hs; simp [truthyQ] at hs
      · rw [hqs] at hs
        simp only [truthyQ, decide_eq_true_eq] at hs
        exact ⟨s, rfl, hs⟩
    have hts : truthyQ (some s) = true := truthyQ_some_of_ne s hs0
    rw [hsv]
    refine ⟨s - w, ?_, ?_⟩ <;>
      simp [parseDuration, hts, hd, truthyQ_none, getExpiryDurations, sub_add_cancel]
  · have hs' : truthyQ query.sourceExpiryDuration = false := by
      cases h : truthyQ query.sourceExpiryDuration
      · rfl
      · exact absurd h hs
    by_cases hd : truthyQ query.destinationExpiryDuration = true
    · obtain ⟨d, hdv, hd0⟩ : ∃ d, query.destinationExpiryDuration = some d ∧ d ≠ 0 := by
        rcases hqd : query.destinationExpiryDuration with _ | d
        · rw [hqd] at hd; simp [truthyQ] at hd
        · rw [hqd] at hd
          simp only [truthyQ, decide_eq_true_eq] at hd
          exact ⟨d, rfl, hd⟩
      have htd : truthyQ (some d) = true := truthyQ_some_of_ne d hd0
      rw [hdv]
      refine ⟨d, ?_, ?_⟩ <;>
        simp [parseDuration, hs', htd, truthyQ_none, getExpiryDurations]
    · have hd' : truthyQ query.destinationExpiryDuration = false := by
        cases h : truthyQ query.destinationExpiryDuration
        · rfl
        · exact absurd h hd
      have ht5 : truthyQ (some (5 : ℚ)) = true := truthyQ_some_of_ne 5 (by norm_num)
      refine ⟨5, ?_, ?_⟩ <;>
        simp [parseDuration, hs', hd', ht5, truthyQ_none, getExpiryDurations]

/-- Helper: when neither duration is truthy, the attached destination expiry
duration is the 5-second default. -/
theorem eds_default (query : CoreQuery) (w : ℚ)
    (h : truthyQ query.sourceExpiryDuration = false ∧
      truthyQ query.destinationExpiryDuration = false) :
    (getExpiryDurations (Core.sedOf query) (Core.dedOf query) w).2 = some 5 := by
  unfold Core.dedOf Core.sedOf
  have ht5 : truthyQ (some (5 : ℚ)) = true := truthyQ_some_of_ne 5 (by norm_num)
  simp [parseDuration, h.1, h.2, ht5, truthyQ_none, getExpiryDurations]

/-- C5 counterexample: the claim asserts every quote satisfies
sourceExpiryDuration = destinationExpiryDuration + minMessageWindow, on the
ground that the two are never both independently supplied. But `Core._quote`
does not prevent a caller from supplying both: with source duration 10,
destination duration 3, and a 2-second hop window, both pass through unchanged
and 10 ≠ 3 + 2. -/
theorem C5_cex :
    Core._quote localHopEnv bothDurationsQuery = Except.ok (some
      { connectorAccount := "example.blue.connie", sourceLedger := "example.blue.",
        nextLedger := "example.red.", destinationLedger := "example.red.",
        sourceAmount := "100", destinationAmount := "50", minMessageWindow := 2,
        additionalInfo := none, sourceExpiryDuration := some 10,
        destinationExpiryDuration := some 3 }) ∧
    (10 : ℚ) ≠ 3 + 2 := by
  constructor
  · rfl
  · norm_num

/-- C5 (amended): for every quote `Core.quote` returns on a query that does
not supply both expiry durations (at most one is truthy), the quote's
sourceExpiryDuration equals its destinationExpiryDuration plus its
minMessageWindow; and when the caller supplies neither duration,
destinationExpiryDuration defaults to 5 seconds. When both are supplied they
pass through unchanged and the identity can fail. -/
theorem C5_thm (env : CoreEnv) (query : CoreQuery) (q : CoreQuote)
    (hq : Core._quote env query = Except.ok (some q))
    (hnb : truthyQ query.sourceExpiryDuration = false ∨
      truthyQ query.destinationExpiryDuration = false) :
    (∃ d, q.destinationExpiryDuration = some d ∧
      q.sourceExpiryDuration = some (d + q.minMessageWindow)) ∧
    ((truthyQ query.sourceExpiryDuration = false ∧
      truthyQ query.destinationExpiryDuration = false) →
      q.destinationExpiryDuration = some 5) := by
  unfold Core._quote at hq
  split at hq
  · exact absurd hq (by simp)
  · split at hq
    · -- local path
      simp only [Except.ok.injEq, Option.some.injEq] at hq
      subst hq
      constructor
      · obtain ⟨d, h2, h1⟩ := eds_derived query _ hnb
        exact ⟨d, h2, h1⟩
      · intro hboth
        exact eds_default query _ hboth
    · -- remote path
      split at hq
      · exact absurd hq (by simp)
      · split at hq
        · exact absurd hq (by simp)
        · split at hq
          · exact absurd hq (by simp)
          · simp only [Except.ok.injEq, Option.some.injEq] at hq
            subst hq
            constructor
            · obtain ⟨d, h2, h1⟩ := eds_derived query _ hnb
              exact ⟨d, h2, h1⟩
            · intro hboth
              exact eds_default query _ hboth

/-- C5 witness: with no caller durations and a 2-second window, the returned
local quote has destination expiry 5 (the default) and source expiry
5 + 2. -/
theorem C5_wit :
    noDurationsLocalQuote.destinationExpiryDuration = some 5 ∧
    noDurationsLocalQuote.sourceExpiryDuration =
      some (5 + noDurationsLocalQuote.minMessageWindow) := by
  obtain ⟨⟨d, hd, hsrc⟩, hdef⟩ :=
    C5_thm localHopEnv noDurationsQuery noDurationsLocalQuote rfl (Or.inl rfl)
  have h5 : noDurationsLocalQuote.destinationExpiryDuration = some 5 := hdef ⟨rfl, rfl⟩
  refine ⟨h5, ?_⟩
  rw [hd] at h5
  injection h5 with h5v
  rw [hsrc, h5v]

/-! ## Claim C3: absent tail quote on the multi-hop path -/

/-- C3 counterexample: the claim says that when the best hop exists but the
remote tail-quote request yields no quote, `Core.quote` falls back to the
local quote or an absent result and never throws. In `src/lib/core.js` there
is no such guard: with a multi-hop best hop and a remote connector that
declines (the `util.getQuote` helper returns `undefined`), `Core.quote`
throws a `TypeError` reading `tailQuote.source_amount` — the promise rejects
instead of resolving to a quote or to an absent result. -/
theorem C3_cex :
    Core._quote multiHopDeclineEnv multiHopQuery = Except.error typeErrorMsg := by
  rfl

/-- C3 (amended): in the `src/lib/core.js` version there is no absent-tail
guard: for any query — by source amount or by destination amount — whose best
hop is multi-hop (its `finalLedger` is not the destination's ledger prefix),
whose tail query is built (`Core.tailSourceAmountOf` does not itself throw;
for a destination-amount query it never does, for a source-amount query this
is exactly the head hop existing), and whose remote tail request yields no
quote, `Core.quote` rejects with a TypeError (reading
`tailQuote.source_amount` respectively `tailQuote.source_expiry_duration`);
it returns neither the locally-built quote nor an absent result. (The
historical `ilp-routing` variants differ: one returns the local quote,
another returns `null`.) -/
theorem C3_thm (env : CoreEnv) (query : CoreQuery) (hop : Hop)
    (tailSourceAmount : Option String)
    (hfind : Core._findBestHopForAmount env query.sourceAddress query.destinationAddress
      query.sourceAmount query.destinationAmount = some hop)
    (hml : ledgerPrefixOf query.destinationAddress ≠ hop.finalLedger)
    (hts : Core.tailSourceAmountOf env query hop = Except.ok tailSourceAmount)
    (htail : env.remoteQuote hop.connector
      (Core.tailQueryOf query hop tailSourceAmount) = none) :
    Core._quote env query = Except.error typeErrorMsg := by
  unfold Core._quote
  rw [hfind]
  simp only [if_neg hml, hts, htail]

/-- C3 witness: the amended behaviour at the concrete declining environment,
both for a destination-amount query and for a source-amount query. -/
theorem C3_wit :
    Core._quote multiHopDeclineEnv multiHopQuery = Except.error typeErrorMsg ∧
    Core._quote multiHopDeclineEnv multiHopSourceQuery = Except.error typeErrorMsg :=
  ⟨C3_thm multiHopDeclineEnv multiHopQuery multiHop none rfl (by decide) rfl rfl,
   C3_thm multiHopDeclineEnv multiHopSourceQuery multiHop
     (some (Core._roundDown multiHopDeclineEnv multiHop.destinationLedger
       multiHop.destinationAmount))
     rfl (by decide) rfl rfl⟩
